import Mathlib

/-!
Shallow embedding of the `@entrolytics/astro` package.

Strings are modelled as `List Char` (`Str`), so that JavaScript string
operations (concatenation, truthiness, trailing-slash stripping) become
executable list operations with good lemma support.  Machine time
(`Date.now()`) is modelled as a `Nat` parameter passed to each call that
reads the clock.  The JavaScript notions of `undefined` and falsiness are
made explicit: an optional value is `Option _`, string falsiness is
`none` or the empty string, and number falsiness is `0`.

Sources embedded:
  * `src/index.ts` — option resolution, script-tag generation, the
    `entrolytics` integration factory (its injected snippets are recorded
    as the list of `injectScript` calls made by the setup hook);
  * the client module — `trackRevenue`, `trackVital`, `trackFormEvent`
    and the `createFormTracker` session.  Network and console activity is
    reified as a list of `ClientEffect`s; the form-tracker methods return
    the `FormEventData` payloads they hand to `trackFormEvent`, paired
    with the updated session state.
-/

abbrev Str := List Char

/-- JavaScript truthiness filter for an optional string: `undefined` and
the empty string are falsy; a truthy string passes through. -/
def truthyStr (s : Option Str) : Option Str :=
  match s with
  | some v => if v.isEmpty then none else some v
  | none => none

/-- JavaScript `a || b` on optional strings: yields `a` when `a` is
truthy, otherwise yields `b` unchanged. -/
def jsOr (a b : Option Str) : Option Str :=
  match truthyStr a with
  | some v => some v
  | none => b

/-- JavaScript falsiness test (`!x`) for an optional string. -/
def jsFalsy (s : Option Str) : Bool :=
  match s with
  | some v => v.isEmpty
  | none => true

/-- `host.replace(/\/$/, "")`: removes one trailing slash if present. -/
def stripTrailingSlash (s : Str) : Str :=
  match s.getLast? with
  | some c => if c = '/' then s.dropLast else s
  | none => s

/- ===================== src/index.ts : data model ===================== -/

/-- `EntrolyticsOptions` (src/index.ts lines 5-74): `websiteId` is the
only required field; every other field is optional (`Option`), with the
documented defaults applied inside `generateScriptTag`. -/
structure EntrolyticsOptions where
  websiteId : Str
  host : Option Str := none
  autoTrack : Option Bool := none
  trackOutboundLinks : Option Bool := none
  trackFileDownloads : Option Bool := none
  respectDnt : Option Bool := none
  domains : Option (List Str) := none
  cacheScript : Option Bool := none
  useEdgeRuntime : Option Bool := none
  tag : Option Str := none
  excludeSearch : Option Bool := none
  excludeHash : Option Bool := none

/-- `Partial<EntrolyticsOptions>` as accepted by the `entrolytics`
factory: every field optional, including `websiteId`. -/
structure PartialOptions where
  websiteId : Option Str := none
  host : Option Str := none
  autoTrack : Option Bool := none
  trackOutboundLinks : Option Bool := none
  trackFileDownloads : Option Bool := none
  respectDnt : Option Bool := none
  domains : Option (List Str) := none
  cacheScript : Option Bool := none
  useEdgeRuntime : Option Bool := none
  tag : Option Str := none
  excludeSearch : Option Bool := none
  excludeHash : Option Bool := none

def DEFAULT_HOST : Str := "https://entrolytics.click".data

/-- Script path choice (src/index.ts line 92):
`useEdgeRuntime ? "/script-edge.js" : "/script.js"`, where the
destructuring default makes an unset `useEdgeRuntime` count as `true`. -/
def scriptPath (options : EntrolyticsOptions) : Str :=
  if options.useEdgeRuntime.getD true then "/script-edge.js".data else "/script.js".data

/-- Script URL (src/index.ts line 93):
`host.replace(/\/$/, "") + scriptPath`, with the destructuring default
`host = DEFAULT_HOST` applying only when the field is `undefined`. -/
def scriptUrl (options : EntrolyticsOptions) : Str :=
  stripTrailingSlash (options.host.getD DEFAULT_HOST) ++ scriptPath options

def attrAutoTrack : Str := "data-auto-track=\"false\"".data
def attrOutbound : Str := "data-track-outbound-links=\"true\"".data
def attrFileDownloads : Str := "data-track-file-downloads=\"true\"".data
def attrDnt : Str := "data-do-not-track=\"true\"".data
def attrExcludeSearch : Str := "data-exclude-search=\"true\"".data
def attrExcludeHash : Str := "data-exclude-hash=\"true\"".data

def attrSrc (options : EntrolyticsOptions) : Str :=
  "src=\"".data ++ scriptUrl options ++ "\"".data

def attrWebsiteId (options : EntrolyticsOptions) : Str :=
  "data-website-id=\"".data ++ options.websiteId ++ "\"".data

def attrDomains (ds : List Str) : Str :=
  "data-domains=\"".data ++ List.intercalate (",".data) ds ++ "\"".data

def attrTag (t : Str) : Str := "data-tag=\"".data ++ t ++ "\"".data

/-- The `attributes` array built by `generateScriptTag`
(src/index.ts lines 95-127).  Each conditional `push` becomes a
conditional singleton appended in the same order.  The conditions are the
source's JavaScript truthiness tests on the destructured (defaulted)
option values: `!autoTrack`, `trackOutboundLinks`, `trackFileDownloads`,
`respectDnt`, `domains && domains.length > 0`, `tag` (defined and
non-empty), `excludeSearch`, `excludeHash`. -/
def generateScriptAttributes (options : EntrolyticsOptions) : List Str :=
  [attrSrc options, attrWebsiteId options, "defer".data]
    ++ (if !(options.autoTrack.getD true) then [attrAutoTrack] else [])
    ++ (if options.trackOutboundLinks.getD true then [attrOutbound] else [])
    ++ (if options.trackFileDownloads.getD false then [attrFileDownloads] else [])
    ++ (if options.respectDnt.getD false then [attrDnt] else [])
    ++ (match options.domains with
        | some ds => if 0 < ds.length then [attrDomains ds] else []
        | none => [])
    ++ (match truthyStr options.tag with
        | some t => [attrTag t]
        | none => [])
    ++ (if options.excludeSearch.getD false then [attrExcludeSearch] else [])
    ++ (if options.excludeHash.getD false then [attrExcludeHash] else [])

/-- `generateScriptTag` (src/index.ts line 129):
`"<script " + attributes.join(" ") + "></script>"`. -/
def generateScriptTag (options : EntrolyticsOptions) : Str :=
  "<script ".data ++ List.intercalate (" ".data) (generateScriptAttributes options)
    ++ "></script>".data

/- ============== src/index.ts : entrolytics factory ============== -/

/-- The environment variables the factory reads from `import.meta.env`
(src/index.ts lines 162-170). -/
structure Env where
  PUBLIC_ENTROLYTICS_WEBSITE_ID : Option Str := none
  VITE_ENTROLYTICS_WEBSITE_ID : Option Str := none
  PUBLIC_ENTROLYTICS_HOST : Option Str := none
  VITE_ENTROLYTICS_HOST : Option Str := none
  DEV : Bool := false

inductive InjectPos where
  | headInline
  | page
deriving DecidableEq

/-- The integration object, with the `injectScript` calls its
`astro:config:setup` hook performs recorded in order. -/
structure Integration where
  name : Str
  injections : List (InjectPos × Str)
deriving DecidableEq

def missingIdWarning : Str :=
  "[@entrolytics/astro] Missing websiteId. Add PUBLIC_ENTROLYTICS_WEBSITE_ID to your .env file.".data

def missingIdError : Str := "[@entrolytics/astro] websiteId is required".data

/-- Inline config snippet (src/index.ts lines 200-207), with the
template literal's exact whitespace; `host` gets one trailing slash
stripped at render time. -/
def configScript (websiteId host : Str) : Str :=
  "\n          <script>\n            window.__entrolytics_config = \x7b\n              websiteId: \"".data
    ++ websiteId
    ++ "\",\n              host: \"".data
    ++ stripTrailingSlash host
    ++ "\"\n            \x7d;\n          </script>\n        ".data

/-- View-transitions fallback snippet (src/index.ts lines 216-223). -/
def pageLoadSnippet : Str :=
  "\n          document.addEventListener(\x27astro:page-load\x27, () => \x7b\n            if (typeof window.entrolytics !== \x27undefined\x27 && window.entrolytics.track) \x7b\n              // The script handles this automatically with data-auto-track\n              // This is a fallback for View Transitions\n            \x7d\n          \x7d);\n        ".data

/-- `finalOptions` (src/index.ts lines 178-191): resolved `websiteId`
and `host`, remaining fields passed through unresolved. -/
def finalOptions (websiteId host : Str) (options : PartialOptions) : EntrolyticsOptions :=
  { websiteId := websiteId
    host := some host
    autoTrack := options.autoTrack
    trackOutboundLinks := options.trackOutboundLinks
    trackFileDownloads := options.trackFileDownloads
    respectDnt := options.respectDnt
    domains := options.domains
    cacheScript := options.cacheScript
    useEdgeRuntime := options.useEdgeRuntime
    tag := options.tag
    excludeSearch := options.excludeSearch
    excludeHash := options.excludeHash }

/-- The integration value returned on success (src/index.ts
lines 193-227); `injections` lists the three `injectScript` calls the
setup hook makes, in order: config snippet first, then the script tag,
then the page-load fallback. -/
def integrationOf (websiteId host : Str) (options : PartialOptions) : Integration :=
  { name := "@entrolytics/astro".data
    injections :=
      [ (InjectPos.headInline, configScript websiteId host)
      , (InjectPos.headInline, generateScriptTag (finalOptions websiteId host options))
      , (InjectPos.page, pageLoadSnippet) ] }

/-- `websiteId` resolution (src/index.ts lines 163-164): the JavaScript
chain `options.websiteId || env.PUBLIC_ENTROLYTICS_WEBSITE_ID ||
env.VITE_ENTROLYTICS_WEBSITE_ID`. -/
def resolveWebsiteId (options : PartialOptions) (env : Env) : Option Str :=
  jsOr (jsOr options.websiteId env.PUBLIC_ENTROLYTICS_WEBSITE_ID) env.VITE_ENTROLYTICS_WEBSITE_ID

/-- `host` resolution (src/index.ts lines 166-167): the chain
`options.host || env.PUBLIC_ENTROLYTICS_HOST || env.VITE_ENTROLYTICS_HOST
|| DEFAULT_HOST`. -/
def resolveHost (options : PartialOptions) (env : Env) : Option Str :=
  jsOr (jsOr (jsOr options.host env.PUBLIC_ENTROLYTICS_HOST) env.VITE_ENTROLYTICS_HOST)
    (some DEFAULT_HOST)

/-- The `entrolytics` factory (src/index.ts lines 159-228).  Returns the
console warnings it emitted paired with either the thrown configuration
error or the integration.  The guard of line 169 is the falsiness test on
the resolved `websiteId`. -/
def entrolytics (options : PartialOptions) (env : Env) : List Str × Except Str Integration :=
  if jsFalsy (resolveWebsiteId options env) then
    ((if env.DEV then [missingIdWarning] else []), Except.error missingIdError)
  else
    ([], Except.ok (integrationOf ((resolveWebsiteId options env).getD [])
      ((resolveHost options env).getD []) options))

/-- Projection used to compare two factory results on the injected
markup of the success case. -/
def okInjections (r : List Str × Except Str Integration) : List (InjectPos × Str) :=
  match r.2 with
  | Except.ok i => i.injections
  | Except.error _ => []

/- ===================== client module : data model ===================== -/

/-- JSON-like values of the client module's `EventData` records
(`string | number | boolean | EventData | string[] | number[] |
EventData[]`).  JavaScript numbers are modelled as rationals. -/
inductive JVal where
  | jnum (q : ℚ)
  | jstr (s : Str)
  | jbool (b : Bool)
  | jarr (xs : List JVal)
  | jobj (fields : List (Str × JVal))

/-- `EventData`: a JavaScript object literal, as its ordered list of
key/value insertions (a later insertion of the same key wins on read). -/
abbrev EventData := List (Str × JVal)

/-- Property read on an object literal: the value of the last binding of
the key, as JavaScript object-literal construction semantics dictate. -/
def objGet (o : EventData) (k : Str) : Option JVal :=
  match o with
  | [] => none
  | (k2, v) :: rest =>
    match objGet rest k with
    | some v2 => some v2
    | none => if k2 = k then some v else none

/-- `trackRevenue` (client module lines 121-135): the `(eventName,
eventData)` pair delegated to `window.entrolytics.track` once
`waitForTracker` finds the tracker.  `eventData` is the object literal
`\x7b ...data, revenue, currency \x7d`; the JavaScript default
`currency = "USD"` applies when the argument is left out, so `currency`
is taken here already resolved. -/
def trackRevenue (eventName : Str) (revenue : ℚ) (currency : Str) (data : Option EventData) :
    Str × EventData :=
  (eventName,
    (data.getD []) ++ [ ("revenue".data, JVal.jnum revenue), ("currency".data, JVal.jstr currency) ])

/- ============== client module : vitals / form network calls ============== -/

inductive WebVitalMetric where
  | LCP | INP | CLS | TTFB | FCP
deriving DecidableEq

inductive WebVitalRating where
  | good | needsImprovement | poor
deriving DecidableEq

inductive NavKind where
  | navigate | reload | backForward | backForwardCache | prerender | restore
deriving DecidableEq

/-- `WebVitalData` (client module lines 34-42). -/
structure WebVitalData where
  metric : WebVitalMetric
  value : ℚ
  rating : WebVitalRating
  delta : Option ℚ := none
  id : Option Str := none
  navKind : Option NavKind := none
  attribution : Option EventData := none

inductive FormEventType where
  | start | field_focus | field_blur | field_error | submit | abandon
deriving DecidableEq

/-- `FormEventData` (client module lines 56-68). -/
structure FormEventData where
  eventType : FormEventType
  formId : Str
  formName : Option Str := none
  urlPath : Option Str := none
  fieldName : Option Str := none
  fieldType : Option Str := none
  fieldIndex : Option Nat := none
  timeOnField : Option Nat := none
  timeSinceStart : Option Nat := none
  errorMessage : Option Str := none
  success : Option Bool := none

/-- `window.__entrolytics_config` as injected by the build step. -/
structure RuntimeConfig where
  websiteId : Str
  host : Str

/-- The parts of the browser `window` the client module reads. -/
structure WindowState where
  config : Option RuntimeConfig
  locationHref : Str
  locationPathname : Str

/-- Payload POSTed to `/api/collect/vitals` (client module
lines 208-219). -/
structure VitalPayload where
  website : Str
  metric : WebVitalMetric
  value : ℚ
  rating : WebVitalRating
  delta : Option ℚ
  id : Option Str
  navKind : Option NavKind
  attribution : Option EventData
  url : Str
  path : Str

/-- Payload POSTed to `/api/collect/forms` (client module
lines 342-355). -/
structure FormPayload where
  website : Str
  eventType : FormEventType
  formId : Str
  formName : Option Str
  urlPath : Str
  fieldName : Option Str
  fieldType : Option Str
  fieldIndex : Option Nat
  timeOnField : Option Nat
  timeSinceStart : Option Nat
  errorMessage : Option Str
  success : Option Bool

inductive PostBody where
  | vitals (p : VitalPayload)
  | forms (p : FormPayload)

/-- Observable actions of the client dispatch functions, in order. -/
inductive ClientEffect where
  | consoleWarn (msg : Str)
  | consoleErr (msg : Str)
  | fetchPost (url : Str) (body : PostBody)

def configWarnMsg : Str :=
  "[Entrolytics] Config not found. Ensure integration is properly configured.".data

def vitalErrMsg : Str := "[Entrolytics] Failed to track vital:".data

def formErrMsg : Str := "[Entrolytics] Failed to track form event:".data

/-- `trackVital` (client module lines 199-231).  `win` is `none` outside
a browser; `fetchOk` tells whether the POST promise resolves (a rejection
is caught and logged, never rethrown).  The returned list is every
console/network action the call performs. -/
def trackVital (win : Option WindowState) (fetchOk : Bool) (data : WebVitalData) :
    List ClientEffect :=
  match win with
  | none => []
  | some w =>
    match w.config with
    | none => [ClientEffect.consoleWarn configWarnMsg]
    | some config =>
      let payload : VitalPayload :=
        { website := config.websiteId
          metric := data.metric
          value := data.value
          rating := data.rating
          delta := data.delta
          id := data.id
          navKind := data.navKind
          attribution := data.attribution
          url := w.locationHref
          path := w.locationPathname }
      let doFetch := ClientEffect.fetchPost (config.host ++ "/api/collect/vitals".data)
        (PostBody.vitals payload)
      if fetchOk then [doFetch] else [doFetch, ClientEffect.consoleErr vitalErrMsg]

/-- JavaScript `a || b` where `b` is a plain string
(`data.urlPath || window.location.pathname`). -/
def jsOrStr (a : Option Str) (b : Str) : Str :=
  match truthyStr a with
  | some v => v
  | none => b

/-- `trackFormEvent` (client module lines 333-367). -/
def trackFormEvent (win : Option WindowState) (fetchOk : Bool) (data : FormEventData) :
    List ClientEffect :=
  match win with
  | none => []
  | some w =>
    match w.config with
    | none => [ClientEffect.consoleWarn configWarnMsg]
    | some config =>
      let payload : FormPayload :=
        { website := config.websiteId
          eventType := data.eventType
          formId := data.formId
          formName := data.formName
          urlPath := jsOrStr data.urlPath w.locationPathname
          fieldName := data.fieldName
          fieldType := data.fieldType
          fieldIndex := data.fieldIndex
          timeOnField := data.timeOnField
          timeSinceStart := data.timeSinceStart
          errorMessage := data.errorMessage
          success := data.success }
      let doFetch := ClientEffect.fetchPost (config.host ++ "/api/collect/forms".data)
        (PostBody.forms payload)
      if fetchOk then [doFetch] else [doFetch, ClientEffect.consoleErr formErrMsg]

/- ===================== client module : form tracker ===================== -/

/-- Session state captured by the `createFormTracker` closure
(client module lines 381-382): `startTime` (`number | null`) and the
`Map` from field name to its last focus time. -/
structure FormSession where
  startTime : Option Nat
  fieldStartTimes : List (Str × Nat)
deriving DecidableEq

def initialSession : FormSession := { startTime := none, fieldStartTimes := [] }

/-- `Map.get`. -/
def mapGet (m : List (Str × Nat)) (k : Str) : Option Nat :=
  match m with
  | [] => none
  | (k2, v) :: rest => if k2 = k then some v else mapGet rest k

/-- `Map.set`: overwrites in place if the key exists, appends
otherwise. -/
def mapSet (m : List (Str × Nat)) (k : Str) (v : Nat) : List (Str × Nat) :=
  match m with
  | [] => [(k, v)]
  | (k2, v2) :: rest => if k2 = k then (k2, v) :: rest else (k2, v2) :: mapSet rest k v

/-- JavaScript falsiness of a `number | null` slot (`null` and `0`). -/
def jsFalsyNum (t : Option Nat) : Bool :=
  match t with
  | some n => n == 0
  | none => true

/-- `t ? now - t : undefined`, the conditional elapsed-time expression
used for `timeOnField` / `timeSinceStart`. -/
def jsElapsed (now : Nat) (t : Option Nat) : Option Nat :=
  match t with
  | some v => if v = 0 then none else some (now - v)
  | none => none

/-- `tracker.trackStart` (client module lines 385-388): records the
clock and emits a `start` event.  Result: payloads passed to
`trackFormEvent`, then the new session state. -/
def trackStart (formId : Str) (formName : Option Str) (now : Nat) (st : FormSession) :
    List FormEventData × FormSession :=
  ([ { eventType := FormEventType.start, formId := formId, formName := formName } ],
    { st with startTime := some now })

/-- `tracker.trackFieldFocus` (client module lines 390-405): when no
truthy start time exists it first records one and emits `start`; then it
overwrites the field's focus time and emits `field_focus` with
`Date.now() - startTime`. -/
def trackFieldFocus (formId : Str) (formName : Option Str) (fieldName : Str)
    (fieldType : Option Str) (fieldIndex : Option Nat) (now : Nat) (st : FormSession) :
    List FormEventData × FormSession :=
  let startEvents :=
    if jsFalsyNum st.startTime then
      [ { eventType := FormEventType.start, formId := formId, formName := formName } ]
    else []
  let st1 := if jsFalsyNum st.startTime then { st with startTime := some now } else st
  let st2 := { st1 with fieldStartTimes := mapSet st1.fieldStartTimes fieldName now }
  (startEvents ++
    [ { eventType := FormEventType.field_focus, formId := formId, formName := formName
        fieldName := some fieldName, fieldType := fieldType, fieldIndex := fieldIndex
        timeSinceStart := some (now - st1.startTime.getD 0) } ],
    st2)

/-- `tracker.trackFieldBlur` (client module lines 407-419): emits
`field_blur` with the two conditional elapsed times; the session state is
not touched. -/
def trackFieldBlur (formId : Str) (formName : Option Str) (fieldName : Str)
    (fieldType : Option Str) (fieldIndex : Option Nat) (now : Nat) (st : FormSession) :
    FormEventData × FormSession :=
  ({ eventType := FormEventType.field_blur, formId := formId, formName := formName
     fieldName := some fieldName, fieldType := fieldType, fieldIndex := fieldIndex
     timeOnField := jsElapsed now (mapGet st.fieldStartTimes fieldName)
     timeSinceStart := jsElapsed now st.startTime },
    st)

/-- `tracker.trackFieldError` (client module lines 421-437). -/
def trackFieldError (formId : Str) (formName : Option Str) (fieldName : Str)
    (errorMessage : Str) (fieldType : Option Str) (fieldIndex : Option Nat) (now : Nat)
    (st : FormSession) : FormEventData × FormSession :=
  ({ eventType := FormEventType.field_error, formId := formId, formName := formName
     fieldName := some fieldName, fieldType := fieldType, fieldIndex := fieldIndex
     errorMessage := some errorMessage
     timeSinceStart := jsElapsed now st.startTime },
    st)

/-- `tracker.trackSubmit` (client module lines 439-449): emits `submit`
with the conditional elapsed time, then sets `startTime = null` and
clears the field map. -/
def trackSubmit (formId : Str) (formName : Option Str) (success : Bool) (now : Nat)
    (st : FormSession) : FormEventData × FormSession :=
  ({ eventType := FormEventType.submit, formId := formId, formName := formName
     success := some success
     timeSinceStart := jsElapsed now st.startTime },
    { startTime := none, fieldStartTimes := [] })

/-- `tracker.trackAbandon` (client module lines 451-458): emits
`abandon` with the conditional elapsed time; the session state is not
touched. -/
def trackAbandon (formId : Str) (formName : Option Str) (now : Nat) (st : FormSession) :
    FormEventData × FormSession :=
  ({ eventType := FormEventType.abandon, formId := formId, formName := formName
     timeSinceStart := jsElapsed now st.startTime },
    st)

/-- Session states reachable from a freshly created tracker through its
methods, with every clock reading strictly positive (`Date.now()` is the
positive millisecond count since the epoch). -/
inductive Reachable : FormSession → Prop where
  | init : Reachable initialSession
  | startStep (formId : Str) (formName : Option Str) (now : Nat) (st : FormSession) :
      0 < now → Reachable st → Reachable (trackStart formId formName now st).2
  | focusStep (formId : Str) (formName : Option Str) (fieldName : Str)
      (fieldType : Option Str) (fieldIndex : Option Nat) (now : Nat) (st : FormSession) :
      0 < now → Reachable st →
      Reachable (trackFieldFocus formId formName fieldName fieldType fieldIndex now st).2
  | blurStep (formId : Str) (formName : Option Str) (fieldName : Str)
      (fieldType : Option Str) (fieldIndex : Option Nat) (now : Nat) (st : FormSession) :
      0 < now → Reachable st →
      Reachable (trackFieldBlur formId formName fieldName fieldType fieldIndex now st).2
  | errorStep (formId : Str) (formName : Option Str) (fieldName : Str) (errorMessage : Str)
      (fieldType : Option Str) (fieldIndex : Option Nat) (now : Nat) (st : FormSession) :
      0 < now → Reachable st →
      Reachable (trackFieldError formId formName fieldName errorMessage fieldType fieldIndex now st).2
  | submitStep (formId : Str) (formName : Option Str) (success : Bool) (now : Nat)
      (st : FormSession) :
      0 < now → Reachable st → Reachable (trackSubmit formId formName success now st).2
  | abandonStep (formId : Str) (formName : Option Str) (now : Nat) (st : FormSession) :
      0 < now → Reachable st → Reachable (trackAbandon formId formName now st).2

/-- Invariant of reachable sessions: every recorded timestamp is
positive (so the JavaScript truthiness tests on them coincide with
presence). -/
def PositiveTimes (st : FormSession) : Prop :=
  (∀ t, st.startTime = some t → 0 < t) ∧ (∀ p ∈ st.fieldStartTimes, 0 < p.2)

/- ===================== spec-side definitions ===================== -/

/-- Whether the factory result is the integration (no error thrown). -/
def isOkE (e : Except Str Integration) : Bool :=
  match e with
  | Except.ok _ => true
  | Except.error _ => false

/-- Modelled from the spec (§4.1, §8), exactly as the claim states it:
an optional attribute appears if and only if the option's resolved value
deviates from its documented default (`autoTrack`, `trackOutboundLinks`
default `true`; `trackFileDownloads`, `respectDnt`, `excludeSearch`,
`excludeHash` default `false`; `domains` and `tag` default to absent, so
a supplied non-empty value deviates). -/
def claimedScriptAttributes (options : EntrolyticsOptions) : List Str :=
  [attrSrc options, attrWebsiteId options, "defer".data]
    ++ (if (options.autoTrack.getD true) != true then [attrAutoTrack] else [])
    ++ (if (options.trackOutboundLinks.getD true) != true then [attrOutbound] else [])
    ++ (if (options.trackFileDownloads.getD false) != false then [attrFileDownloads] else [])
    ++ (if (options.respectDnt.getD false) != false then [attrDnt] else [])
    ++ (match options.domains with
        | some ds => if !ds.isEmpty then [attrDomains ds] else []
        | none => [])
    ++ (match options.tag with
        | some t => if !t.isEmpty then [attrTag t] else []
        | none => [])
    ++ (if (options.excludeSearch.getD false) != false then [attrExcludeSearch] else [])
    ++ (if (options.excludeHash.getD false) != false then [attrExcludeHash] else [])

/-- Modelled from the spec (§4.1, §8) as amended: every optional
attribute appears exactly when its option deviates from its documented
default, except `data-track-outbound-links="true"`, which appears
exactly when the resolved `trackOutboundLinks` value is `true` — i.e.
also at its documented default. -/
def amendedScriptAttributes (options : EntrolyticsOptions) : List Str :=
  [attrSrc options, attrWebsiteId options, "defer".data]
    ++ (if (options.autoTrack.getD true) != true then [attrAutoTrack] else [])
    ++ (if (options.trackOutboundLinks.getD true) == true then [attrOutbound] else [])
    ++ (if (options.trackFileDownloads.getD false) != false then [attrFileDownloads] else [])
    ++ (if (options.respectDnt.getD false) != false then [attrDnt] else [])
    ++ (match options.domains with
        | some ds => if !ds.isEmpty then [attrDomains ds] else []
        | none => [])
    ++ (match options.tag with
        | some t => if !t.isEmpty then [attrTag t] else []
        | none => [])
    ++ (if (options.excludeSearch.getD false) != false then [attrExcludeSearch] else [])
    ++ (if (options.excludeHash.getD false) != false then [attrExcludeHash] else [])

/- ===================== concrete inputs for witnesses ===================== -/

/-- An all-default option set with a non-empty `websiteId`. -/
def o0 : EntrolyticsOptions := { websiteId := "w".data }

/-- A browser window that carries no injected configuration object. -/
def w0 : WindowState := { config := none, locationHref := [], locationPathname := [] }

def vd0 : WebVitalData :=
  { metric := WebVitalMetric.LCP, value := 0, rating := WebVitalRating.good }

def fd0 : FormEventData := { eventType := FormEventType.start, formId := "f".data }

def revData0 : EventData := [( "productId".data, JVal.jstr ( "abc".data ) )]

/- ===================== helper lemmas ===================== -/

theorem bne_true_eq_not (x : Bool) : (x != true) = !x := by cases x <;> rfl

theorem beq_true_eq_self (x : Bool) : (x == true) = x := by cases x <;> rfl

theorem bne_false_eq_self (x : Bool) : (x != false) = x := by cases x <;> rfl

theorem if_isEmpty_eq_if_length (ds : List Str) (A : List Str) :
    (if !ds.isEmpty then A else ([] : List Str)) = (if 0 < ds.length then A else []) := by
  cases ds <;> simp

theorem tag_match_eq_truthy (t? : Option Str) :
    (match t? with
      | some t => if !t.isEmpty then [attrTag t] else []
      | none => ([] : List Str)) =
    (match truthyStr t? with
      | some t => [attrTag t]
      | none => ([] : List Str)) := by
  cases t? with
  | none => rfl
  | some t => cases t <;> simp [truthyStr]

theorem jsFalsy_jsOr (a b : Option Str) : jsFalsy (jsOr a b) = (jsFalsy a && jsFalsy b) := by
  cases a with
  | none => simp [jsOr, truthyStr, jsFalsy]
  | some s => cases s <;> simp [jsOr, truthyStr, jsFalsy]

theorem jsOr_truthy (a b : Option Str) (v : Str) (h : truthyStr a = some v) :
    jsOr a b = some v := by
  simp [jsOr, h]

theorem truthyStr_of_ne_nil (v : Str) (h : v ≠ []) : truthyStr (some v) = some v := by
  simp [truthyStr, List.isEmpty_iff, h]

theorem strip_concat_slash (h : Str) : stripTrailingSlash (h ++ ['/']) = h := by
  simp [stripTrailingSlash, List.getLast?_concat, List.dropLast_concat]

theorem strip_no_slash (h : Str) (hh : h.getLast? ≠ some '/') : stripTrailingSlash h = h := by
  unfold stripTrailingSlash
  cases hl : h.getLast? with
  | none => rfl
  | some c =>
    have hc : c ≠ '/' := by
      intro hc
      exact hh (hc ▸ hl)
    simp [hc]

theorem objGet_append (a b : EventData) (k : Str) :
    objGet (a ++ b) k =
      (match objGet b k with
        | some v => some v
        | none => objGet a k) := by
  induction a with
  | nil => cases hb : objGet b k <;> simp [objGet, hb]
  | cons p rest ih =>
    obtain ⟨k2, v⟩ := p
    show (match objGet (rest ++ b) k with
          | some v2 => some v2
          | none => if k2 = k then some v else none) = _
    rw [ih]
    cases hb : objGet b k <;> simp [objGet]

theorem objGet_isSome_of_mem (a : EventData) (k : Str) (h : k ∈ a.map Prod.fst) :
    (objGet a k).isSome = true := by
  induction a with
  | nil => simp at h
  | cons p rest ih =>
    obtain ⟨k2, v⟩ := p
    simp only [objGet]
    cases hr : objGet rest k with
    | some v2 => simp
    | none =>
      simp only [List.map_cons, List.mem_cons] at h
      cases h with
      | inl hk => simp [hk.symm]
      | inr hk =>
        have := ih hk
        rw [hr] at this
        simp at this

theorem mapSet_mem (m : List (Str × Nat)) (k : Str) (v : Nat) (p : Str × Nat)
    (hp : p ∈ mapSet m k v) : p.2 = v ∨ p ∈ m := by
  induction m with
  | nil =>
    simp [mapSet] at hp
    left
    rw [hp]
  | cons q rest ih =>
    obtain ⟨k2, v2⟩ := q
    simp only [mapSet] at hp
    by_cases hk : k2 = k
    · rw [if_pos hk] at hp
      rcases List.mem_cons.mp hp with h1 | h1
      · left; rw [h1]
      · right; exact List.mem_cons_of_mem _ h1
    · rw [if_neg hk] at hp
      rcases List.mem_cons.mp hp with h1 | h1
      · right; rw [h1]; exact List.mem_cons_self _ _
      · rcases ih h1 with h2 | h2
        · left; exact h2
        · right; exact List.mem_cons_of_mem _ h2

theorem reachable_positive (st : FormSession) (h : Reachable st) : PositiveTimes st := by
  induction h with
  | init => exact ⟨by simp [initialSession], by simp [initialSession]⟩
  | startStep fid fn now st hpos _ ih =>
    refine ⟨?_, ?_⟩
    · intro t ht
      simp [trackStart] at ht
      rw [← ht]
      exact hpos
    · intro p hp
      exact ih.2 p hp
  | focusStep fid fn f ft fi now st hpos _ ih =>
    simp only [trackFieldFocus]
    by_cases hf : jsFalsyNum st.startTime = true
    · rw [if_pos hf]
      refine ⟨?_, ?_⟩
      · intro t ht
        simp at ht
        rw [← ht]
        exact hpos
      · intro p hp
        simp only at hp
        rcases mapSet_mem _ _ _ _ hp with h2 | h2
        · rw [h2]; exact hpos
        · exact ih.2 p h2
    · rw [if_neg hf]
      refine ⟨?_, ?_⟩
      · intro t ht
        simp at ht
        exact ih.1 t ht
      · intro p hp
        simp only at hp
        rcases mapSet_mem _ _ _ _ hp with h2 | h2
        · rw [h2]; exact hpos
        · exact ih.2 p h2
  | blurStep fid fn f ft fi now st hpos _ ih => exact ih
  | errorStep fid fn f em ft fi now st hpos _ ih => exact ih
  | submitStep fid fn su now st hpos _ ih =>
    exact ⟨by simp [trackSubmit], by simp [trackSubmit]⟩
  | abandonStep fid fn now st hpos _ ih => exact ih

/- ===================== claim theorems ===================== -/

/-- Claim C1, counterexample: at an all-default option set with the
non-empty websiteId "w", `generateScriptTag`'s attribute list is not the
list the claim describes: it contains
`data-track-outbound-links="true"` even though `trackOutboundLinks`
resolves to `true`, its documented default. -/
theorem generateScriptAttributes_claim_counterexample :
    generateScriptAttributes o0 ≠ claimedScriptAttributes o0 ∧
    attrOutbound ∈ generateScriptAttributes o0 ∧
    (o0.trackOutboundLinks.getD true) = true := by decide

/-- Claim C1, amended: for every option set, the attribute list contains
exactly the optional attributes whose option deviates from its documented
default — except `data-track-outbound-links="true"`, which is emitted
exactly when the resolved `trackOutboundLinks` value is `true`,
including at its documented default. -/
theorem generateScriptAttributes_matches_amended_spec (options : EntrolyticsOptions) :
    generateScriptAttributes options = amendedScriptAttributes options := by
  simp only [generateScriptAttributes, amendedScriptAttributes, bne_true_eq_not,
    beq_true_eq_self, bne_false_eq_self, if_isEmpty_eq_if_length, tag_match_eq_truthy]

/-- Claim C5: for every option set (hence any host value),
`useEdgeRuntime` unset or `true` selects the path `/script-edge.js` and
`false` selects `/script.js`; the first attribute of the generated tag is
the `src` URL built from the normalized host and that path. -/
theorem scriptPath_runtime_selection (options : EntrolyticsOptions) :
    (options.useEdgeRuntime ≠ some false → scriptPath options = "/script-edge.js".data) ∧
    (options.useEdgeRuntime = some false → scriptPath options = "/script.js".data) ∧
    (generateScriptAttributes options).head? = some (attrSrc options) ∧
    attrSrc options =
      "src=\"".data ++ stripTrailingSlash (options.host.getD DEFAULT_HOST)
        ++ scriptPath options ++ "\"".data := by
  refine ⟨?_, ?_, rfl, ?_⟩
  · intro h
    rcases hu : options.useEdgeRuntime with _ | b
    · simp [scriptPath, hu]
    · cases b
      · exact absurd hu h
      · simp [scriptPath, hu]
  · intro h
    simp [scriptPath, h]
  · simp [attrSrc, scriptUrl, List.append_assoc]

/-- Claim C5, witness: the edge path at an unset `useEdgeRuntime` and
the node path at `useEdgeRuntime := false`. -/
theorem scriptPath_runtime_selection_witness :
    scriptPath o0 = "/script-edge.js".data ∧
    scriptPath { o0 with useEdgeRuntime := some false } = "/script.js".data :=
  ⟨(scriptPath_runtime_selection o0).1 (by decide),
   (scriptPath_runtime_selection { o0 with useEdgeRuntime := some false }).2.1 rfl⟩

/-- Claim C10: an explicit empty-string `websiteId` behaves exactly like
an absent one; with it absent or empty, resolution falls through to
`PUBLIC_ENTROLYTICS_WEBSITE_ID` then `VITE_ENTROLYTICS_WEBSITE_ID`; the
factory raises exactly when all three sources are empty or absent; and an
empty-string `tag` or an empty `domains` list emits no attribute. -/
theorem empty_values_treated_absent (o : PartialOptions) (env : Env) :
    (entrolytics { o with websiteId := some [] } env =
      entrolytics { o with websiteId := none } env) ∧
    ((o.websiteId = some [] ∨ o.websiteId = none) →
      resolveWebsiteId o env =
        jsOr env.PUBLIC_ENTROLYTICS_WEBSITE_ID env.VITE_ENTROLYTICS_WEBSITE_ID) ∧
    (isOkE (entrolytics o env).2 = false ↔
      (jsFalsy o.websiteId && jsFalsy env.PUBLIC_ENTROLYTICS_WEBSITE_ID &&
        jsFalsy env.VITE_ENTROLYTICS_WEBSITE_ID) = true) ∧
    (∀ oo : EntrolyticsOptions,
      generateScriptAttributes { oo with tag := some [] } =
          generateScriptAttributes { oo with tag := none } ∧
        generateScriptAttributes { oo with domains := some [] } =
          generateScriptAttributes { oo with domains := none }) := by
  have hkey : jsFalsy (resolveWebsiteId o env) =
      (jsFalsy o.websiteId && jsFalsy env.PUBLIC_ENTROLYTICS_WEBSITE_ID &&
        jsFalsy env.VITE_ENTROLYTICS_WEBSITE_ID) := by
    simp [resolveWebsiteId, jsFalsy_jsOr, Bool.and_assoc]
  refine ⟨rfl, ?_, ?_, ?_⟩
  · intro h
    rcases h with h | h <;> simp [resolveWebsiteId, jsOr, truthyStr, h]
  · rw [← hkey]
    cases hcond : jsFalsy (resolveWebsiteId o env) with
    | false => simp [entrolytics, hcond, isOkE]
    | true => simp [entrolytics, hcond, isOkE]
  · intro oo
    exact ⟨rfl, rfl⟩

/-- Claim C10, witness: concrete fall-through, raise, and no-attribute
instances. -/
theorem empty_values_treated_absent_witness :
    entrolytics { websiteId := some [] } {} = entrolytics {} {} ∧
    resolveWebsiteId { websiteId := some [] }
        { PUBLIC_ENTROLYTICS_WEBSITE_ID := some ( "e".data ) } =
      jsOr (some ( "e".data )) none ∧
    isOkE (entrolytics {} {}).2 = false ∧
    generateScriptAttributes { o0 with tag := some [] } =
      generateScriptAttributes { o0 with tag := none } ∧
    generateScriptAttributes { o0 with domains := some [] } =
      generateScriptAttributes { o0 with domains := none } := by
  refine ⟨(empty_values_treated_absent {} {}).1, ?_, ?_, ?_, ?_⟩
  · exact (empty_values_treated_absent { websiteId := some [] }
      { PUBLIC_ENTROLYTICS_WEBSITE_ID := some ( "e".data ) }).2.1 (Or.inl rfl)
  · exact (empty_values_treated_absent {} {}).2.2.1.mpr (by decide)
  · exact ((empty_values_treated_absent {} {}).2.2.2 o0).1
  · exact ((empty_values_treated_absent {} {}).2.2.2 o0).2

/-- Claim C2: whenever no website identifier is found — the explicit
option and both environment variables all absent or empty — the factory
throws the configuration error regardless of every other field, emitting
the warning exactly when the development flag is set (the pair's first
component lists the warnings printed before the throw); whenever an
identifier is found it returns the integration without raising. -/
theorem entrolytics_requires_websiteId (o : PartialOptions) (env : Env) :
    ((jsFalsy o.websiteId && jsFalsy env.PUBLIC_ENTROLYTICS_WEBSITE_ID &&
        jsFalsy env.VITE_ENTROLYTICS_WEBSITE_ID) = true →
      (entrolytics o env).2 = Except.error missingIdError ∧
        (entrolytics o env).1 = (if env.DEV then [missingIdWarning] else [])) ∧
    ((jsFalsy o.websiteId && jsFalsy env.PUBLIC_ENTROLYTICS_WEBSITE_ID &&
        jsFalsy env.VITE_ENTROLYTICS_WEBSITE_ID) = false →
      isOkE (entrolytics o env).2 = true ∧ (entrolytics o env).1 = []) := by
  have hkey : jsFalsy (resolveWebsiteId o env) =
      (jsFalsy o.websiteId && jsFalsy env.PUBLIC_ENTROLYTICS_WEBSITE_ID &&
        jsFalsy env.VITE_ENTROLYTICS_WEBSITE_ID) := by
    simp [resolveWebsiteId, jsFalsy_jsOr, Bool.and_assoc]
  constructor
  · intro h
    rw [← hkey] at h
    simp [entrolytics, h]
  · intro h
    rw [← hkey] at h
    simp [entrolytics, h, isOkE]

/-- Claim C2, witness: with everything absent and `DEV` set, the factory
warns and throws; with an explicit identifier it succeeds. -/
theorem entrolytics_requires_websiteId_witness :
    (entrolytics {} { DEV := true }).2 = Except.error missingIdError ∧
    (entrolytics {} { DEV := true }).1 = [missingIdWarning] ∧
    isOkE (entrolytics { websiteId := some ( "w".data ) } {}).2 = true := by
  have h1 := (entrolytics_requires_websiteId {} { DEV := true }).1 (by decide)
  have h2 := (entrolytics_requires_websiteId { websiteId := some ( "w".data ) } {}).2 (by decide)
  exact ⟨h1.1, by rw [h1.2]; rfl, h2.1⟩

/-- Claim C6, counterexample: the host `"/"` ends in a single trailing
slash and `""` is the same host without it, yet the two render different
output — `"/"` is truthy and survives resolution (stripping to the empty
host) while `""` is falsy and falls back to the default host, so both the
script tag's src URL and the config snippet's host field differ. -/
theorem host_strip_claim_counterexample :
    ( "/".data ) = ([] : Str) ++ ['/'] ∧
    okInjections (entrolytics { websiteId := some ( "w".data ), host := some ( "/".data ) } {}) ≠
      okInjections (entrolytics { websiteId := some ( "w".data ), host := some [] } {}) := by
  constructor
  · rfl
  · decide

/-- Claim C6, amended: for every option set and every non-empty host not
already ending in a slash, appending one trailing slash leaves the
factory's entire rendered output — script tag and config snippet —
unchanged. -/
theorem entrolytics_trailing_slash_insensitive (o : PartialOptions) (env : Env) (h : Str)
    (hne : h ≠ []) (hlast : h.getLast? ≠ some '/') :
    entrolytics { o with host := some (h ++ ['/']) } env =
      entrolytics { o with host := some h } env := by
  have hs1 : stripTrailingSlash (h ++ ['/']) = h := strip_concat_slash h
  have hs2 : stripTrailingSlash h = h := strip_no_slash h hlast
  have hne2 : h ++ ['/'] ≠ [] := by simp
  have ht1 := truthyStr_of_ne_nil _ hne2
  have ht2 := truthyStr_of_ne_nil _ hne
  have hr1 : resolveHost { o with host := some (h ++ ['/']) } env = some (h ++ ['/']) := by
    simp [resolveHost, jsOr, ht1]
  have hr2 : resolveHost { o with host := some h } env = some h := by
    simp [resolveHost, jsOr, ht2]
  have hw1 : resolveWebsiteId { o with host := some (h ++ ['/']) } env =
      resolveWebsiteId o env := rfl
  have hw2 : resolveWebsiteId { o with host := some h } env = resolveWebsiteId o env := rfl
  simp only [entrolytics, hw1, hw2, hr1, hr2]
  cases hcond : jsFalsy (resolveWebsiteId o env) with
  | true => simp
  | false =>
    simp only [Bool.false_eq_true, if_false, Prod.mk.injEq, true_and, Except.ok.injEq]
    simp [integrationOf, configScript, generateScriptTag, generateScriptAttributes,
      attrSrc, scriptUrl, scriptPath, attrWebsiteId, finalOptions, hs1, hs2]

/-- Claim C6 (amended), witness: `https://x.com/` and `https://x.com`
render identically. -/
theorem entrolytics_trailing_slash_insensitive_witness :
    entrolytics { websiteId := some ( "w".data ), host := some ( "https://x.com".data ++ ['/'] ) } {} =
      entrolytics { websiteId := some ( "w".data ), host := some ( "https://x.com".data ) } {} :=
  entrolytics_trailing_slash_insensitive { websiteId := some ( "w".data ) } {}
    ( "https://x.com".data ) (by decide) (by decide)

/-- Claim C3: from any session state whatsoever, `trackSubmit` leaves
the session in exactly its initial state (start time cleared, field map
empty), so a following `trackFieldFocus` coincides with one on a freshly
created session: it emits a `start` event, records the fresh start time
and the field's focus time, and reports elapsed time zero from the new
start. -/
theorem trackSubmit_resets_session (formId : Str) (formName : Option Str) (success : Bool)
    (now : Nat) (st : FormSession) :
    (trackSubmit formId formName success now st).2 = initialSession ∧
    (∀ fieldName fieldType fieldIndex now2,
      trackFieldFocus formId formName fieldName fieldType fieldIndex now2
          (trackSubmit formId formName success now st).2 =
        trackFieldFocus formId formName fieldName fieldType fieldIndex now2 initialSession) ∧
    (∀ fieldName fieldType fieldIndex now2,
      trackFieldFocus formId formName fieldName fieldType fieldIndex now2 initialSession =
        ([ { eventType := FormEventType.start, formId := formId, formName := formName },
           { eventType := FormEventType.field_focus, formId := formId, formName := formName,
             fieldName := some fieldName, fieldType := fieldType, fieldIndex := fieldIndex,
             timeSinceStart := some 0 } ],
         { startTime := some now2, fieldStartTimes := [(fieldName, now2)] })) := by
  refine ⟨rfl, fun _ _ _ _ => rfl, fun f ft fi n2 => ?_⟩
  simp [trackFieldFocus, jsFalsyNum, mapSet, initialSession]

/-- Claim C4: with no configuration object on the global scope, both
`trackVital` and `trackFormEvent` return after logging exactly the one
warning — no fetch is performed and nothing is thrown (both functions are
total and their effect list is the single warning). -/
theorem client_track_without_config (w : WindowState) (fetchOk : Bool) (vd : WebVitalData)
    (fd : FormEventData) (h : w.config = none) :
    trackVital (some w) fetchOk vd = [ClientEffect.consoleWarn configWarnMsg] ∧
    trackFormEvent (some w) fetchOk fd = [ClientEffect.consoleWarn configWarnMsg] ∧
    (∀ u b, ClientEffect.fetchPost u b ∉ trackVital (some w) fetchOk vd) ∧
    (∀ u b, ClientEffect.fetchPost u b ∉ trackFormEvent (some w) fetchOk fd) := by
  rcases w with ⟨cfg, href, path⟩
  have h2 : cfg = none := h
  subst h2
  refine ⟨rfl, rfl, ?_, ?_⟩
  all_goals intro u b hb
  · simp [trackVital] at hb
  · simp [trackFormEvent] at hb

/-- Claim C4, witness: the concrete no-config window. -/
theorem client_track_without_config_witness :
    trackVital (some w0) true vd0 = [ClientEffect.consoleWarn configWarnMsg] ∧
    trackFormEvent (some w0) true fd0 = [ClientEffect.consoleWarn configWarnMsg] := by
  have h := client_track_without_config w0 true vd0 fd0 rfl
  exact ⟨h.1, h.2.1⟩

/-- Claim C7: `trackRevenue` delegates to `track` with the given event
name and one merged object holding the revenue under key `revenue`, the
currency under key `currency`, and every key of the supplied data
record. -/
theorem trackRevenue_merges_payload (eventName : Str) (revenue : ℚ) (currency : Str)
    (data : EventData) :
    (trackRevenue eventName revenue currency (some data)).1 = eventName ∧
    objGet (trackRevenue eventName revenue currency (some data)).2 ( "revenue".data ) =
      some (JVal.jnum revenue) ∧
    objGet (trackRevenue eventName revenue currency (some data)).2 ( "currency".data ) =
      some (JVal.jstr currency) ∧
    ∀ k ∈ data.map Prod.fst,
      (objGet (trackRevenue eventName revenue currency (some data)).2 k).isSome = true := by
  refine ⟨rfl, ?_, ?_, ?_⟩
  · show objGet (data ++ [( "revenue".data, JVal.jnum revenue ),
      ( "currency".data, JVal.jstr currency )]) ( "revenue".data ) = _
    rw [objGet_append]
    rfl
  · show objGet (data ++ [( "revenue".data, JVal.jnum revenue ),
      ( "currency".data, JVal.jstr currency )]) ( "currency".data ) = _
    rw [objGet_append]
    rfl
  · intro k hk
    show (objGet (data ++ [( "revenue".data, JVal.jnum revenue ),
      ( "currency".data, JVal.jstr currency )]) k).isSome = true
    rw [objGet_append]
    cases htail : objGet [( "revenue".data, JVal.jnum revenue ),
        ( "currency".data, JVal.jstr currency )] k with
    | some v => simp
    | none => simpa using objGet_isSome_of_mem data k hk

/-- Claim C7, witness: the spec's own example,
`trackRevenue("purchase", 99.99, "USD", \x7bproductId: "abc"\x7d)`. -/
theorem trackRevenue_merges_payload_witness :
    (trackRevenue ( "purchase".data ) (9999 / 100 : ℚ) ( "USD".data ) (some revData0)).1 =
      ( "purchase".data ) ∧
    objGet (trackRevenue ( "purchase".data ) (9999 / 100 : ℚ) ( "USD".data )
        (some revData0)).2 ( "revenue".data ) = some (JVal.jnum (9999 / 100 : ℚ)) ∧
    objGet (trackRevenue ( "purchase".data ) (9999 / 100 : ℚ) ( "USD".data )
        (some revData0)).2 ( "currency".data ) = some (JVal.jstr ( "USD".data )) ∧
    (objGet (trackRevenue ( "purchase".data ) (9999 / 100 : ℚ) ( "USD".data )
        (some revData0)).2 ( "productId".data )).isSome = true := by
  have h := trackRevenue_merges_payload ( "purchase".data ) (9999 / 100 : ℚ)
    ( "USD".data ) revData0
  exact ⟨h.1, h.2.1, h.2.2.1, h.2.2.2 ( "productId".data ) (by decide)⟩

/-- Claim C8: in any reachable session state, `trackFieldBlur` on a
field that was never focused emits a `field_blur` event whose
`timeOnField` is absent and whose `timeSinceStart` is present exactly
when a session start time exists. -/
theorem trackFieldBlur_unfocused_field (formId : Str) (formName : Option Str)
    (fieldName : Str) (fieldType : Option Str) (fieldIndex : Option Nat) (now : Nat)
    (st : FormSession) (hr : Reachable st)
    (hf : mapGet st.fieldStartTimes fieldName = none) :
    (trackFieldBlur formId formName fieldName fieldType fieldIndex now st).1.timeOnField =
      none ∧
    ((trackFieldBlur formId formName fieldName fieldType fieldIndex now st).1.timeSinceStart ≠
        none ↔ st.startTime ≠ none) := by
  have hpos := (reachable_positive st hr).1
  constructor
  · simp [trackFieldBlur, hf, jsElapsed]
  · cases hst : st.startTime with
    | none => simp [trackFieldBlur, jsElapsed, hst]
    | some t =>
      have ht : t ≠ 0 := Nat.pos_iff_ne_zero.mp (hpos t hst)
      simp [trackFieldBlur, jsElapsed, hst, ht]

/-- Claim C8, witness: blurring the never-focused field "e" on a fresh
session. -/
theorem trackFieldBlur_unfocused_field_witness :
    (trackFieldBlur ( "f".data ) none ( "e".data ) none none 5 initialSession).1.timeOnField =
      none ∧
    ((trackFieldBlur ( "f".data ) none ( "e".data ) none none 5
          initialSession).1.timeSinceStart ≠ none ↔
      initialSession.startTime ≠ none) :=
  trackFieldBlur_unfocused_field ( "f".data ) none ( "e".data ) none none 5 initialSession
    Reachable.init rfl

/-- Claim C9: in any reachable session state, `trackAbandon` emits an
`abandon` event carrying the elapsed time since the session start —
absent exactly when no start is recorded — and leaves the session state
(start time and field-timing map) exactly as it was. -/
theorem trackAbandon_preserves_state (formId : Str) (formName : Option Str) (now : Nat)
    (st : FormSession) (hr : Reachable st) :
    (trackAbandon formId formName now st).2 = st ∧
    (trackAbandon formId formName now st).1.eventType = FormEventType.abandon ∧
    (trackAbandon formId formName now st).1.timeSinceStart =
      st.startTime.map (fun t => now - t) := by
  have hpos := (reachable_positive st hr).1
  refine ⟨rfl, rfl, ?_⟩
  cases hst : st.startTime with
  | none => simp [trackAbandon, jsElapsed, hst]
  | some t =>
    have ht : t ≠ 0 := Nat.pos_iff_ne_zero.mp (hpos t hst)
    simp [trackAbandon, jsElapsed, hst, ht]

/-- Claim C9, witness: abandoning at time 9 a session started at time 5
leaves the state unchanged and reports 4 elapsed. -/
theorem trackAbandon_preserves_state_witness :
    (trackAbandon ( "f".data ) none 9 (trackStart ( "f".data ) none 5 initialSession).2).2 =
      (trackStart ( "f".data ) none 5 initialSession).2 ∧
    (trackAbandon ( "f".data ) none 9
        (trackStart ( "f".data ) none 5 initialSession).2).1.eventType =
      FormEventType.abandon ∧
    (trackAbandon ( "f".data ) none 9
        (trackStart ( "f".data ) none 5 initialSession).2).1.timeSinceStart = some 4 := by
  have h := trackAbandon_preserves_state ( "f".data ) none 9
    (trackStart ( "f".data ) none 5 initialSession).2
    (Reachable.startStep ( "f".data ) none 5 initialSession (by decide) Reachable.init)
  exact ⟨h.1, h.2.1, h.2.2.trans rfl⟩
